import Mathlib

/-!
Shallow embedding of the deterministic seed-derivation engine of
`src/script.js` (the Imposter party game).

JavaScript numbers are modelled exactly: every quantity that the source
keeps as a JS number appears here as an exact integer, and the 32-bit
operators (`<<`, `>>>`, `^`, `Math.imul`, `>>> 0`) are modelled through
explicit ToUint32 / ToInt32 conversions on `Int`, exactly as the
ECMAScript specification performs them.  All double-precision additions
in the source stay far below 2^53, so exact integers are faithful.  The
final `hash / 4294967296` divides an integer below 2^32 by a power of
two, which binary64 represents exactly, so it is modelled in `Rat`.
Strings are modelled as their sequences of UTF-16 code unit values
(`List Nat`), which is what `charCodeAt` enumerates and what JS string
concatenation appends; the ASCII tag literals of the source are spelled
out as code-unit lists.
-/

namespace Chameleon

/-- ECMAScript ToUint32 of an exact integer: reduce modulo 2^32 into `[0, 2^32)`. -/
def toUint32 (z : ℤ) : ℕ := (z % 4294967296).toNat

/-- ECMAScript ToInt32 of an exact integer: reduce modulo 2^32 into `[-2^31, 2^31)`. -/
def jsToInt32 (z : ℤ) : ℤ :=
  if z % 4294967296 < 2147483648 then z % 4294967296 else z % 4294967296 - 4294967296

/-- JavaScript `x << n`: operand to Int32, shift left keeping the low 32 bits,
result read as Int32.  (All shift counts in the source are literals below 32.) -/
def jsShl (z : ℤ) (n : ℕ) : ℤ := jsToInt32 (jsToInt32 z * 2 ^ n)

/-- JavaScript `x >>> n`: operand to Uint32, then logical right shift. -/
def jsUshr (z : ℤ) (n : ℕ) : ℕ := toUint32 z >>> n

/-- JavaScript `x ^ y`: both operands taken to 32 bits, bitwise xor of the bit
patterns, result read back as a signed Int32. -/
def jsXor (a b : ℤ) : ℤ := jsToInt32 ((toUint32 a ^^^ toUint32 b : ℕ) : ℤ)

/-- JavaScript `Math.imul(x, y)`: 32-bit truncated product, result read as Int32. -/
def jsImul (a b : ℤ) : ℤ := jsToInt32 ((toUint32 a : ℤ) * (toUint32 b : ℤ))

/-- `seedToNumber` from `src/script.js` lines 47-54: djb2-style rolling hash,
`hash = ((hash << 5) + hash + seedString.charCodeAt(i)) >>> 0` from 5381. -/
def seedToNumber (s : List ℕ) : ℕ :=
  s.foldl (fun (hash c : ℕ) => toUint32 (jsShl (hash : ℤ) 5 + (hash : ℤ) + (c : ℤ))) 5381

/-- The mixing pipeline of `seededRandom`, `src/script.js` lines 68-74, applied
to the 32-bit hash, operator by operator as JavaScript executes it. -/
def jsMix (h : ℕ) : ℕ :=
  let h0 : ℤ := (h : ℤ)
  let h1 : ℤ := jsXor h0 ((jsUshr h0 17 : ℕ) : ℤ)
  let h2 : ℕ := toUint32 (jsImul h1 0xed5ad4bb)
  let h3 : ℤ := jsXor (h2 : ℤ) ((jsUshr (h2 : ℤ) 11 : ℕ) : ℤ)
  let h4 : ℕ := toUint32 (jsImul h3 0xac4c1b51)
  let h5 : ℤ := jsXor (h4 : ℤ) ((jsUshr (h4 : ℤ) 15 : ℕ) : ℤ)
  let h6 : ℕ := toUint32 (jsImul h5 0x31848bab)
  let h7 : ℤ := jsXor (h6 : ℤ) ((jsUshr (h6 : ℤ) 14 : ℕ) : ℤ)
  toUint32 h7

/-- The final 32-bit value `hash >>> 0` computed by `seededRandom`,
`src/script.js` lines 64-77. -/
def seededRandomNum (s : List ℕ) : ℕ := jsMix (seedToNumber s)

/-- `seededRandom` from `src/script.js` lines 64-78: the mixed hash divided by
4294967296.  The division is exact in binary64, so `Rat` is a faithful model. -/
def seededRandom (s : List ℕ) : ℚ := (seededRandomNum s : ℚ) / 4294967296

/-- Modelled from the spec (section 4.1): the reference djb2 fold,
`accumulator = (accumulator * 33 + c) mod 2^32` starting from 5381. -/
def hashToUint32Spec (s : List ℕ) : ℕ :=
  s.foldl (fun acc c => (acc * 33 + c) % 4294967296) 5381

/-- Modelled from the spec (section 4.1): the mixing finalizer with every
intermediate an unsigned 32-bit integer and every multiply taken mod 2^32. -/
def mixSpec (h : ℕ) : ℕ :=
  let h1 := h ^^^ (h >>> 17)
  let h2 := h1 * 0xed5ad4bb % 4294967296
  let h3 := h2 ^^^ (h2 >>> 11)
  let h4 := h3 * 0xac4c1b51 % 4294967296
  let h5 := h4 ^^^ (h4 >>> 15)
  let h6 := h5 * 0x31848bab % 4294967296
  h6 ^^^ (h6 >>> 14)

/-- Modelled from the spec (section 4.1): `hashToUnitFloat` as the spec words it. -/
def hashToUnitFloatSpec (s : List ℕ) : ℚ := (mixSpec (hashToUint32Spec s) : ℚ) / 4294967296

/-- `wordList` from `src/script.js` lines 13-24: the fixed 50-entry word table. -/
def wordList : List String := [
    "volcano", "library", "pizza", "dinosaur", "astronaut",
    "rainbow", "penguin", "chocolate", "submarine", "guitar",
    "elephant", "hurricane", "treasure", "jungle", "wizard",
    "pyramid", "dolphin", "tornado", "castle", "robot",
    "butterfly", "mountain", "spaceship", "dragon", "unicorn",
    "pirate", "hospital", "detective", "skeleton", "flamingo",
    "waterfall", "superhero", "campfire", "kangaroo", "avalanche",
    "lightning", "mushroom", "scarecrow", "telescope", "octopus",
    "helicopter", "goldfish", "firework", "nightmare", "mermaid",
    "thunderstorm", "crocodile", "sunflower", "jellyfish", "snowman"
]

/-- `ROUND_LENGTH_SECONDS` from `src/script.js` line 29. -/
def ROUND_LENGTH_SECONDS : ℕ := 120

/-- `getCurrentRoundNumber` from `src/script.js` lines 93-96, with the current
Unix-seconds value and the window length as explicit inputs. -/
def getCurrentRoundNumber (t W : ℕ) : ℕ := t / W

/-- `getSecondsUntilNextRound` from `src/script.js` lines 103-107, with the
current Unix-seconds value and the window length as explicit inputs. -/
def getSecondsUntilNextRound (t W : ℕ) : ℕ := W - t % W

/-- UTF-16 code units of the source literal "-imposter-". -/
def imposterTag : List ℕ := [45, 105, 109, 112, 111, 115, 116, 101, 114, 45]

/-- UTF-16 code units of the source literal "-word-". -/
def wordTag : List ℕ := [45, 119, 111, 114, 100, 45]

/-- `getImposterPlayer` from `src/script.js` lines 124-127, with the mutable
global `TOTAL_PLAYERS` as an explicit input. -/
def getImposterPlayer (roomCode roundKey : List ℕ) (totalPlayers : ℕ) : ℤ :=
  1 + ⌊seededRandom (roomCode ++ imposterTag ++ roundKey) * (totalPlayers : ℚ)⌋

/-- The array index `Math.floor(seededRandom(seed) * wordList.length)` computed
by `getSecretWord`, `src/script.js` line 138. -/
def wordIndex (roomCode roundKey : List ℕ) : ℤ :=
  ⌊seededRandom (roomCode ++ wordTag ++ roundKey) * (wordList.length : ℚ)⌋

/-- JavaScript array read `l[i]` on an integer index: an element when `i` is in
bounds, `undefined` (here `none`) otherwise. -/
def jsArrayGet (l : List String) (i : ℤ) : Option String :=
  if 0 ≤ i then l.get? i.toNat else none

/-- `getSecretWord` from `src/script.js` lines 136-140. -/
def getSecretWord (roomCode roundKey : List ℕ) : Option String :=
  jsArrayGet wordList (wordIndex roomCode roundKey)

/-- The program's only mutable global state: the slider-configurable
`TOTAL_PLAYERS` from `src/script.js` line 30 (written by `updateTotalPlayers`). -/
structure GameConfig where
  totalPlayers : ℕ

/-- A run of `seededRandom` in a given global state.  The body of
`seededRandom` reads no mutable global, so the state is not consulted. -/
def seededRandomRun (cfg : GameConfig) (s : List ℕ) : ℚ := seededRandom s

/-- A run of `getImposterPlayer` in a given global state: it reads
`TOTAL_PLAYERS`. -/
def getImposterPlayerRun (cfg : GameConfig) (roomCode roundKey : List ℕ) : ℤ :=
  getImposterPlayer roomCode roundKey cfg.totalPlayers

/-- A run of `getSecretWord` in a given global state.  Its body reads only the
constants `wordList` and the seed, never `TOTAL_PLAYERS`. -/
def getSecretWordRun (cfg : GameConfig) (roomCode roundKey : List ℕ) : Option String :=
  getSecretWord roomCode roundKey

/- ------------------------------------------------------------------ -/
/- Basic facts about the 32-bit conversions.                           -/
/- ------------------------------------------------------------------ -/

theorem toUint32_lt (z : ℤ) : toUint32 z < 4294967296 := by
  unfold toUint32
  omega

theorem toUint32_natCast (m : ℕ) : toUint32 (m : ℤ) = m % 4294967296 := by
  unfold toUint32
  omega

theorem toUint32_coe (m : ℕ) (h : m < 4294967296) : toUint32 (m : ℤ) = m := by
  unfold toUint32
  omega

theorem toUint32_jsToInt32 (z : ℤ) : toUint32 (jsToInt32 z) = toUint32 z := by
  unfold toUint32 jsToInt32
  split <;> omega

/- ------------------------------------------------------------------ -/
/- The rolling hash agrees with the reference djb2 fold.               -/
/- ------------------------------------------------------------------ -/

theorem djb2_step (a c : ℕ) (ha : a < 4294967296) :
    toUint32 (jsShl (a : ℤ) 5 + (a : ℤ) + (c : ℤ)) = (a * 33 + c) % 4294967296 := by
  unfold jsShl jsToInt32 toUint32
  norm_num
  split <;> split <;> omega

theorem seedToNumber_foldl_eq (s : List ℕ) :
    ∀ a : ℕ, a < 4294967296 →
      List.foldl (fun (hash c : ℕ) => toUint32 (jsShl (hash : ℤ) 5 + (hash : ℤ) + (c : ℤ))) a s
        = List.foldl (fun acc c => (acc * 33 + c) % 4294967296) a s := by
  induction s with
  | nil => intro a _; simp only [List.foldl_nil]
  | cons c t ih =>
      intro a ha
      simp only [List.foldl_cons]
      rw [djb2_step a c ha]
      exact ih _ (Nat.mod_lt _ (by norm_num))

theorem seedToNumber_eq_spec (s : List ℕ) : seedToNumber s = hashToUint32Spec s := by
  unfold seedToNumber hashToUint32Spec
  exact seedToNumber_foldl_eq s 5381 (by norm_num)

theorem seedToNumber_lt (s : List ℕ) : seedToNumber s < 4294967296 := by
  rw [seedToNumber_eq_spec]
  unfold hashToUint32Spec
  induction s using List.reverseRecOn with
  | nil => norm_num
  | append_singleton t c _ =>
      rw [List.foldl_append]
      exact Nat.mod_lt _ (by norm_num)

/- ------------------------------------------------------------------ -/
/- The mixing pipeline agrees with its all-unsigned description.       -/
/- ------------------------------------------------------------------ -/

theorem jsUshr_lt (z : ℤ) (n : ℕ) : jsUshr z n < 4294967296 := by
  unfold jsUshr
  calc toUint32 z >>> n ≤ toUint32 z := by
        rw [Nat.shiftRight_eq_div_pow]; exact Nat.div_le_self _ _
    _ < 4294967296 := toUint32_lt z

theorem jsUshr_natCast (m : ℕ) (hm : m < 4294967296) (n : ℕ) :
    jsUshr (m : ℤ) n = m >>> n := by
  unfold jsUshr
  rw [toUint32_coe m hm]

theorem xor_lt32 (a b : ℕ) (ha : a < 4294967296) (hb : b < 4294967296) :
    a ^^^ b < 4294967296 := by
  have h : (4294967296 : ℕ) = 2 ^ 32 := by norm_num
  rw [h] at ha hb ⊢
  exact Nat.xor_lt_two_pow ha hb

theorem toUint32_jsXor (a b : ℤ) :
    toUint32 (jsXor a b) = toUint32 a ^^^ toUint32 b := by
  unfold jsXor
  rw [toUint32_jsToInt32]
  exact toUint32_coe _ (xor_lt32 _ _ (toUint32_lt a) (toUint32_lt b))

theorem toUint32_jsImul (a b : ℤ) :
    toUint32 (jsImul a b) = toUint32 a * toUint32 b % 4294967296 := by
  unfold jsImul
  rw [toUint32_jsToInt32]
  rw [show (toUint32 a : ℤ) * (toUint32 b : ℤ) = ((toUint32 a * toUint32 b : ℕ) : ℤ) by
        push_cast; ring]
  exact toUint32_natCast _

theorem step_xor_ushr (m : ℕ) (hm : m < 4294967296) (n : ℕ) :
    toUint32 (jsXor (m : ℤ) ((jsUshr (m : ℤ) n : ℕ) : ℤ)) = m ^^^ (m >>> n) := by
  rw [toUint32_jsXor, toUint32_coe m hm, toUint32_coe _ (jsUshr_lt _ _),
    jsUshr_natCast m hm]

theorem step_xor_ushr_toUint32 (z : ℤ) (n : ℕ) :
    toUint32 (jsXor ((toUint32 z : ℕ) : ℤ) ((jsUshr ((toUint32 z : ℕ) : ℤ) n : ℕ) : ℤ))
      = toUint32 z ^^^ (toUint32 z >>> n) :=
  step_xor_ushr (toUint32 z) (toUint32_lt z) n

theorem toUint32_mixConst1 : toUint32 (0xed5ad4bb : ℤ) = 0xed5ad4bb := by
  unfold toUint32
  norm_num
  rfl

theorem toUint32_mixConst2 : toUint32 (0xac4c1b51 : ℤ) = 0xac4c1b51 := by
  unfold toUint32
  norm_num
  rfl

theorem toUint32_mixConst3 : toUint32 (0x31848bab : ℤ) = 0x31848bab := by
  unfold toUint32
  norm_num
  rfl

theorem jsMix_eq_mixSpec (u : ℕ) (hu : u < 4294967296) : jsMix u = mixSpec u := by
  simp only [jsMix, mixSpec]
  rw [step_xor_ushr_toUint32, toUint32_jsImul, step_xor_ushr_toUint32, toUint32_jsImul,
    step_xor_ushr_toUint32, toUint32_jsImul, step_xor_ushr u hu 17,
    toUint32_mixConst1, toUint32_mixConst2, toUint32_mixConst3]

theorem seededRandomNum_eq_mixSpec (s : List ℕ) :
    seededRandomNum s = mixSpec (seedToNumber s) := by
  unfold seededRandomNum
  exact jsMix_eq_mixSpec _ (seedToNumber_lt s)

theorem seededRandomNum_lt (s : List ℕ) : seededRandomNum s < 4294967296 := by
  unfold seededRandomNum jsMix
  exact toUint32_lt _

/- ------------------------------------------------------------------ -/
/- Range of the unit float and of the derived selections.              -/
/- ------------------------------------------------------------------ -/

theorem seededRandom_nonneg (s : List ℕ) : 0 ≤ seededRandom s := by
  unfold seededRandom
  positivity

theorem seededRandom_lt_one (s : List ℕ) : seededRandom s < 1 := by
  unfold seededRandom
  rw [div_lt_one (by norm_num)]
  exact_mod_cast seededRandomNum_lt s

theorem floor_unit_mul_nonneg (q : ℚ) (hq : 0 ≤ q) (N : ℕ) : 0 ≤ ⌊q * (N : ℚ)⌋ :=
  Int.floor_nonneg.mpr (mul_nonneg hq (by positivity))

theorem floor_unit_mul_lt (q : ℚ) (hq : q < 1) (N : ℕ) (hN : 0 < N) :
    ⌊q * (N : ℚ)⌋ < (N : ℤ) := by
  apply Int.floor_lt.mpr
  push_cast
  calc q * (N : ℚ) < 1 * (N : ℚ) :=
        mul_lt_mul_of_pos_right hq (by exact_mod_cast hN)
    _ = (N : ℚ) := one_mul _

/- ------------------------------------------------------------------ -/
/- The claims.                                                         -/
/- ------------------------------------------------------------------ -/

/-- Claim C1, counterexample: the claim pins `seedToNumber("A")` to 177658,
but the code (and the djb2 fold itself) gives `5381 * 33 + 65 = 177638` on
the single code unit 65 of "A". -/
theorem C1_counterexample : seedToNumber [65] ≠ 177658 := by decide

/-- Claim C1 as amended: `seedToNumber` equals the reference djb2 fold
(accumulator 5381, step `(acc * 33 + c) mod 2^32`), its result lies in
`[0, 2^32)`, `seedToNumber("") = 5381`, and `seedToNumber("A") = 177638`
(the claim's value 177658 is an arithmetic slip: `5381*33 + 65 = 177638`). -/
theorem C1_seedToNumber_is_djb2 :
    (∀ s : List ℕ, seedToNumber s = hashToUint32Spec s ∧ seedToNumber s < 4294967296) ∧
    seedToNumber [] = 5381 ∧ seedToNumber [65] = 177638 :=
  ⟨fun s => ⟨seedToNumber_eq_spec s, seedToNumber_lt s⟩, by decide, by decide⟩

/-- Claim C2: `seededRandom`, computed with JavaScript's signed-producing `^`,
`Math.imul` and `>>> 0` operators, equals the all-unsigned description: xor
with the shifts 17, 11, 15, 14, multiplies by 0xed5ad4bb, 0xac4c1b51,
0x31848bab each taken mod 2^32, final value divided by 4294967296. -/
theorem C2_seededRandom_eq_spec (s : List ℕ) : seededRandom s = hashToUnitFloatSpec s := by
  unfold seededRandom hashToUnitFloatSpec
  rw [seededRandomNum_eq_mixSpec, seedToNumber_eq_spec]

/-- Claim C3: for every seed string, `0 <= seededRandom(s) < 1`; the final
mixed hash is an integer below 2^32 divided exactly by 2^32, so the result
never reaches 1. -/
theorem C3_seededRandom_range (s : List ℕ) : 0 ≤ seededRandom s ∧ seededRandom s < 1 :=
  ⟨seededRandom_nonneg s, seededRandom_lt_one s⟩

/-- Claim C4: with the slot count `N >= 1` explicit, `getImposterPlayer` is
exactly `1 + floor(seededRandom(roomCode + "-imposter-" + roundKey) * N)` and
lies in `[1, N]`, with no clamping needed. -/
theorem C4_getImposterPlayer_range (roomCode roundKey : List ℕ) (N : ℕ) (hN : 1 ≤ N) :
    getImposterPlayer roomCode roundKey N
        = 1 + ⌊seededRandom (roomCode ++ imposterTag ++ roundKey) * (N : ℚ)⌋ ∧
    1 ≤ getImposterPlayer roomCode roundKey N ∧
    getImposterPlayer roomCode roundKey N ≤ (N : ℤ) := by
  refine ⟨rfl, ?_, ?_⟩ <;>
  · unfold getImposterPlayer
    have h0 := floor_unit_mul_nonneg _ (seededRandom_nonneg (roomCode ++ imposterTag ++ roundKey)) N
    have h1 := floor_unit_mul_lt _ (seededRandom_lt_one (roomCode ++ imposterTag ++ roundKey)) N hN
    omega

/-- Claim C4, witness at roomCode = roundKey = "" and N = 6. -/
theorem C4_witness :
    1 ≤ 6 ∧
      (getImposterPlayer [] [] 6
          = 1 + ⌊seededRandom ([] ++ imposterTag ++ []) * ((6 : ℕ) : ℚ)⌋ ∧
        1 ≤ getImposterPlayer [] [] 6 ∧
        getImposterPlayer [] [] 6 ≤ ((6 : ℕ) : ℤ)) :=
  ⟨by norm_num, C4_getImposterPlayer_range [] [] 6 (by norm_num)⟩

/-- Claim C5: the word index `floor(seededRandom(roomCode + "-word-" +
roundKey) * 50)` lies in `[0, 49]`, so `getSecretWord` always performs an
in-bounds lookup and returns an element of the 50-entry word table. -/
theorem C5_getSecretWord_inBounds (roomCode roundKey : List ℕ) :
    0 ≤ wordIndex roomCode roundKey ∧ wordIndex roomCode roundKey ≤ 49 ∧
    ∃ w, getSecretWord roomCode roundKey = some w ∧ w ∈ wordList := by
  have h0 : 0 ≤ wordIndex roomCode roundKey := by
    unfold wordIndex
    exact floor_unit_mul_nonneg _ (seededRandom_nonneg _) _
  have h1 : wordIndex roomCode roundKey < 50 := by
    unfold wordIndex
    exact floor_unit_mul_lt _ (seededRandom_lt_one _) wordList.length (by decide)
  have hidx : (wordIndex roomCode roundKey).toNat < wordList.length := by
    have hlen : wordList.length = 50 := by rfl
    omega
  refine ⟨h0, by omega, wordList.get ⟨(wordIndex roomCode roundKey).toNat, hidx⟩, ?_, ?_⟩
  · unfold getSecretWord jsArrayGet
    rw [if_pos h0, List.get?_eq_get hidx]
  · exact List.get_mem wordList _ hidx

/-- Claim C6: with the time and the positive window length explicit,
`getSecondsUntilNextRound` returns `W - (t mod W)`, which lies in `[1, W]`
and in particular is never 0. -/
theorem C6_secondsUntilNextRound (t W : ℕ) (hW : 0 < W) :
    getSecondsUntilNextRound t W = W - t % W ∧
    1 ≤ getSecondsUntilNextRound t W ∧ getSecondsUntilNextRound t W ≤ W := by
  have h := Nat.mod_lt t hW
  unfold getSecondsUntilNextRound
  omega

/-- Claim C6, witness at t = 7, W = 120. -/
theorem C6_witness :
    0 < 120 ∧
      (getSecondsUntilNextRound 7 120 = 120 - 7 % 120 ∧
        1 ≤ getSecondsUntilNextRound 7 120 ∧ getSecondsUntilNextRound 7 120 ≤ 120) :=
  ⟨by norm_num, C6_secondsUntilNextRound 7 120 (by norm_num)⟩

/-- Claim C7: the round number is monotone in time: for a positive window
length and `t1 < t2`, `getCurrentRoundNumber t1 W <= getCurrentRoundNumber t2 W`. -/
theorem C7_roundNumber_monotone (t1 t2 W : ℕ) (hW : 0 < W) (h : t1 < t2) :
    getCurrentRoundNumber t1 W ≤ getCurrentRoundNumber t2 W :=
  Nat.div_le_div_right (le_of_lt h)

/-- Claim C7, witness at t1 = 5, t2 = 1000, W = 120. -/
theorem C7_witness :
    0 < 120 ∧ 5 < 1000 ∧ getCurrentRoundNumber 5 120 ≤ getCurrentRoundNumber 1000 120 :=
  ⟨by norm_num, by norm_num, C7_roundNumber_monotone 5 1000 120 (by norm_num) (by norm_num)⟩

/-- Claim C8: `seededRandom` is deterministic: two runs in any two global
states (the mutable `TOTAL_PLAYERS` configuration) give the same value,
depending on nothing but the input string. -/
theorem C8_seededRandom_deterministic (cfg1 cfg2 : GameConfig) (s : List ℕ) :
    seededRandomRun cfg1 s = seededRandomRun cfg2 s := rfl

/-- Claim C9: the countdown lands exactly on the next round boundary: at time
`t + getSecondsUntilNextRound t 120` the round number is exactly one more
than at time `t`. -/
theorem C9_countdown_hits_boundary (t : ℕ) :
    getCurrentRoundNumber (t + getSecondsUntilNextRound t ROUND_LENGTH_SECONDS)
        ROUND_LENGTH_SECONDS
      = getCurrentRoundNumber t ROUND_LENGTH_SECONDS + 1 := by
  unfold getCurrentRoundNumber getSecondsUntilNextRound ROUND_LENGTH_SECONDS
  omega

/-- Claim C10: the mutable player-count configuration does not influence word
selection: two runs of `getSecretWord` in any two global states agree. -/
theorem C10_secretWord_ignores_playerCount (cfg1 cfg2 : GameConfig)
    (roomCode roundKey : List ℕ) :
    getSecretWordRun cfg1 roomCode roundKey = getSecretWordRun cfg2 roomCode roundKey := rfl

end Chameleon
